import Mathlib

/-
Verification of the Lumino generation-orchestration pipeline.

Shallow embedding of:
  - src/unnamed/part_001: the express server (dimension selection,
    HeyGen key pool, watermark crop, poll loop, /api/generate-video handler);
  - src/heygen-backend/middleware/limits.js: checkVideoLimits / updateUsage.

Conventions:
  - The key-usage map keyUsageCount is modelled as a list of counters
    aligned with pool order (HEYGEN_KEYS[i] has counter at position i;
    keys are distinct strings, so the map keyed by the key string is in
    bijection with the position-indexed list, and a missing entry reads
    as 0 exactly as the source's (keyUsageCount[key] || 0) does).
    getNextHeyGenKey returns the index of the key it hands out.
  - Effectful steps of the handler (provider submit, status poll,
    download, ffmpeg crop, Catbox upload, Firestore write) are driven by
    an environment that fixes the outcome of each external call; the
    handler itself is the deterministic function generateVideo over that
    environment, the request, and a state recording the account record,
    the key counters, which scratch files exist, the number of video
    records created, and the number of updateUsage('video') calls.
-/

namespace Lumino

/-- Pixel dimensions, as in the handler's dimensions object. -/
structure Dimension where
  width : Nat
  height : Nat
deriving DecidableEq, Repr

/-- Lines 1014-1032 of src/unnamed/part_001: custom dimensions, when
supplied, are used verbatim; otherwise the orientation switch with the
landscape default. -/
def selectDimensions (customDimensions : Option Dimension)
    (orientation : String) : Dimension :=
  match customDimensions with
  | some d => d
  | none =>
    if orientation = "portrait" then { width := 720, height := 1280 }
    else if orientation = "square" then { width := 1080, height := 1080 }
    else { width := 1280, height := 720 }

/-- A generate-video request body (the fields the claims depend on).
orientation is an Option: a missing field takes the destructuring
default value of the string landscape. -/
structure Request where
  script : String
  avatar : String
  orientation : Option String
  customDimensions : Option Dimension

/-- Dimensions the handler submits for a request: the destructuring
default for orientation followed by the switch of lines 1014-1032. -/
def requestDimensions (req : Request) : Dimension :=
  selectDimensions req.customDimensions (req.orientation.getD "landscape")

/-- Scan of lines 887-894 of src/unnamed/part_001: first counter
strictly below 10 is incremented; returns the pool index chosen and the
updated counters, or none when every counter is at 10. -/
def getNextHeyGenKeyGo : List Nat → Option (Nat × List Nat)
  | [] => none
  | c :: cs =>
    if c < 10 then some (0, (c + 1) :: cs)
    else
      match getNextHeyGenKeyGo cs with
      | some (i, cs2) => some (i + 1, c :: cs2)
      | none => none

/-- Lines 885-901 of src/unnamed/part_001: scan for a key under quota;
if all are exhausted, reset the map and hand out the first key with its
counter set to 1. -/
def getNextHeyGenKey (counts : List Nat) : Nat × List Nat :=
  match getNextHeyGenKeyGo counts with
  | some r => r
  | none => (0, 1 :: List.replicate (counts.length - 1) 0)

/-- k sequential calls to getNextHeyGenKey, keeping only the counters. -/
def iterAcquire : Nat → List Nat → List Nat
  | 0, counts => counts
  | k + 1, counts => iterAcquire k (getNextHeyGenKey counts).2

/-- Provider job status as observed by one poll attempt. completed and
failed are the two statuses the loop body inspects; processing stands
for every other status string; queryError is the status GET itself
throwing. -/
inductive PollStatus where
  | completed (videoUrl : String)
  | failed
  | processing
  | queryError
deriving DecidableEq

/-- Outcome of the try block of one poll iteration (lines 1072-1091):
break out with the video url, throw, or fall through to the next
attempt. On status failed the body throws (line 1087); when the status
GET fails the axios call throws. -/
inductive TryOutcome where
  | breakWith (url : String)
  | thrown (msg : String)
  | fallThrough
deriving DecidableEq

/-- The try block of lines 1072-1088 on one observed status. -/
def pollTryBody : PollStatus → TryOutcome
  | PollStatus.completed url => TryOutcome.breakWith url
  | PollStatus.failed => TryOutcome.thrown "HeyGen video generation failed"
  | PollStatus.processing => TryOutcome.fallThrough
  | PollStatus.queryError => TryOutcome.thrown "poll query error"

/-- One full poll iteration: the catch (pollError) of lines 1089-1091
swallows anything the try block threw, so only breakWith ends the loop
with a url; every thrown outcome falls through like a plain re-poll. -/
def pollIteration (s : PollStatus) : Option String :=
  match pollTryBody s with
  | TryOutcome.breakWith url => some url
  | TryOutcome.thrown _ => none
  | TryOutcome.fallThrough => none

/-- Line 1067: const maxAttempts = 60. -/
def maxAttempts : Nat := 60

/-- Line 1070: a 5000 ms wait starts every iteration. -/
def pollIntervalMs : Nat := 5000

/-- The while loop of lines 1069-1094, with fuel maxAttempts - attempts:
returns the url found (if any) together with the number of iterations
actually executed. -/
def pollLoopAux (statusAt : Nat → PollStatus) : Nat → Nat → Option String × Nat
  | 0, _ => (none, 0)
  | fuel + 1, attempts =>
    match pollIteration (statusAt attempts) with
    | some url => (some url, 1)
    | none =>
      match pollLoopAux statusAt fuel (attempts + 1) with
      | (r, k) => (r, k + 1)

/-- Result of the poll loop: some url, or none meaning the 408 timeout
branch of lines 1096-1100. -/
def pollLoop (statusAt : Nat → PollStatus) : Option String :=
  (pollLoopAux statusAt maxAttempts 0).1

/-- Number of iterations the poll loop executes. -/
def pollIterations (statusAt : Nat → PollStatus) : Nat :=
  (pollLoopAux statusAt maxAttempts 0).2

/-- Wall-clock waiting of the loop: each executed iteration is preceded
by one fixed 5000 ms wait. -/
def pollElapsedMs (statusAt : Nat → PollStatus) : Nat :=
  pollIterations statusAt * pollIntervalMs

/-- An ffmpeg crop filter out_w:out_h:x:y. -/
structure CropFilter where
  outW : Int
  outH : Int
  x : Int
  y : Int
deriving DecidableEq, Repr

/-- Line 907 of src/unnamed/part_001: the filter string
crop=iw-150:ih-80:0:0 instantiated at input dimensions iw x ih. -/
def removeWatermarkCrop (iw ih : Int) : CropFilter :=
  { outW := iw - 150, outH := ih - 80, x := 0, y := 0 }

/-- ffmpeg crop semantics: input pixel (px, py) survives the crop iff it
lies in the window of size outW x outH anchored at (x, y). -/
def keptPixel (c : CropFilter) (px py : Int) : Prop :=
  c.x ≤ px ∧ px < c.x + c.outW ∧ c.y ≤ py ∧ py < c.y + c.outH

/-- Line 4 of src/heygen-backend/middleware/limits.js (credits are
integers throughout; 20 credits buy one video). -/
def CREDITS_PER_VIDEO : Int := 20

/-- The upgradeOptions object of lines 25-36 of limits.js. -/
structure UpgradeOptions where
  buyCreditsPrice : Nat
  buyCreditsCredits : Nat
  basicPlanPrice : Nat
  basicPlanCredits : Nat
deriving DecidableEq, Repr

/-- The literal upgradeOptions payload of the 403 response. -/
def upgradeOptions : UpgradeOptions :=
  { buyCreditsPrice := 80, buyCreditsCredits := 20,
    basicPlanPrice := 899, basicPlanCredits := 400 }

/-- The user record fields the ledger touches. -/
structure Account where
  credits : Int
  creditsUsed : Int
  videosGenerated : Int
  scriptsGenerated : Int
deriving DecidableEq, Repr

/-- Outcome of the checkVideoLimits middleware: the structured 403
insufficient-credits response of lines 20-37 of limits.js, or next()
with the req.credits info of lines 41-45. -/
inductive LimitsResult where
  | insufficient (currentCredits : Int) (creditsNeeded : Int)
      (upgrade : UpgradeOptions)
  | proceed (available : Int) (required : Int) (remaining : Int)
deriving DecidableEq

/-- Lines 8-52 of limits.js: read-only balance check against
CREDITS_PER_VIDEO. -/
def checkVideoLimits (account : Account) : LimitsResult :=
  if account.credits < CREDITS_PER_VIDEO then
    LimitsResult.insufficient account.credits CREDITS_PER_VIDEO upgradeOptions
  else
    LimitsResult.proceed account.credits CREDITS_PER_VIDEO
      (account.credits - CREDITS_PER_VIDEO)

/-- Lines 70-90 of limits.js: the credit debit. For usageType video the
atomic increments of credits by -20, creditsUsed by +20, videosGenerated
by +1; for script only scriptsGenerated moves. -/
def updateUsage (usageType : String) (a : Account) : Account :=
  if usageType = "video" then
    { a with credits := a.credits - CREDITS_PER_VIDEO,
             creditsUsed := a.creditsUsed + CREDITS_PER_VIDEO,
             videosGenerated := a.videosGenerated + 1 }
  else if usageType = "script" then
    { a with scriptsGenerated := a.scriptsGenerated + 1 }
  else a

/-- Outcomes of the external calls one run of the handler makes.
providerSubmit: some video_id or a non-2xx submission failure.
statusAt k: what poll attempt k observes. downloadOk / cropOk: whether
the stream download and the ffmpeg crop succeed. uploadResult: some
Catbox url or an upload failure. storeResult: some Firestore doc id or
a Firestore write failure. -/
structure Env where
  providerSubmit : Option String
  statusAt : Nat → PollStatus
  downloadOk : Bool
  cropOk : Bool
  uploadResult : Option String
  storeResult : Option String

/-- Observable state of one run: the caller's account record, the key
counters, whether each scratch file currently exists on disk, how many
video records were created, and how many updateUsage video calls ran. -/
structure PipelineState where
  account : Account
  keyCounts : List Nat
  tempFileExists : Bool
  cleanFileExists : Bool
  videoRecords : Nat
  commits : Nat
deriving DecidableEq, Repr

/-- The HTTP outcome of the handler. badRequest is the 400 of lines
997-1001; insufficientCredits the middleware 403; noKeys the 503 of
lines 1008-1012; timeout the 408 of lines 1096-1100; providerError the
outer catch branch forwarding a provider response; internalError the
outer catch 500 with the thrown message; success the 200 payload. -/
inductive PipelineResult where
  | badRequest
  | insufficientCredits (currentCredits : Int) (creditsNeeded : Int)
      (upgrade : UpgradeOptions)
  | noKeys
  | timeout
  | providerError
  | internalError (msg : String)
  | success (videoId : String) (videoUrl : String)
deriving DecidableEq

/-- Steps 3-9 of the handler, after a key has been acquired. -/
def generateVideoAfterKey (env : Env) (_req : Request) (s : PipelineState) :
    PipelineResult × PipelineState :=
  match env.providerSubmit with
  | none => (PipelineResult.providerError, s)
  | some _ =>
    match pollLoop env.statusAt with
    | none => (PipelineResult.timeout, s)
    | some _ =>
      match env.downloadOk with
      | false =>
        (PipelineResult.internalError "download failed",
         { s with tempFileExists := true })
      | true =>
        match env.cropOk with
        | false =>
          (PipelineResult.internalError "ffmpeg error",
           { s with tempFileExists := true })
        | true =>
          match env.uploadResult with
          | none =>
            (PipelineResult.internalError "Failed to upload video to Catbox",
             { s with tempFileExists := true, cleanFileExists := true })
          | some catboxUrl =>
            match env.storeResult with
            | none =>
              (PipelineResult.internalError "firestore error",
               { s with tempFileExists := true, cleanFileExists := true })
            | some docId =>
              (PipelineResult.success docId catboxUrl,
               { s with
                   tempFileExists := false,
                   cleanFileExists := false,
                   videoRecords := s.videoRecords + 1,
                   account := updateUsage "video" s.account,
                   commits := s.commits + 1 })

/-- Lines 985-1181 of src/unnamed/part_001: the whole
/api/generate-video run (checkVideoLimits middleware, field validation,
key acquisition, then generateVideoAfterKey for submission, poll loop,
download, crop, upload, record write, credit debit, scratch cleanup),
as a function of the external outcomes. Errors thrown by a step land in
the outer catch, which performs no cleanup; only the success path
reaches the removeSync calls of lines 1151-1152. An empty key pool
makes HEYGEN_KEYS[0] undefined and hits the 503 branch; no pool counter
then changes. -/
def generateVideo (env : Env) (req : Request) (s : PipelineState) :
    PipelineResult × PipelineState :=
  match checkVideoLimits s.account with
  | LimitsResult.insufficient cur needed up =>
    (PipelineResult.insufficientCredits cur needed up, s)
  | LimitsResult.proceed _ _ _ =>
    if req.script = "" ∨ req.avatar = "" then (PipelineResult.badRequest, s)
    else
      match s.keyCounts with
      | [] => (PipelineResult.noKeys, s)
      | c0 :: crest =>
        generateVideoAfterKey env req
          { s with keyCounts := (getNextHeyGenKey (c0 :: crest)).2 }

/-- A well-formed request used for concrete runs. -/
def reqSample : Request :=
  { script := "Hello and welcome to our channel.",
    avatar := "Adriana_Business_Front_public",
    orientation := some "landscape",
    customDimensions := none }

/-- A state with a healthy balance of 100 credits and two fresh keys. -/
def stateSample : PipelineState :=
  { account := { credits := 100, creditsUsed := 0, videosGenerated := 0,
                 scriptsGenerated := 0 },
    keyCounts := [0, 0],
    tempFileExists := false,
    cleanFileExists := false,
    videoRecords := 0,
    commits := 0 }

/-- A state with 25 credits, for the end-to-end success scenario. -/
def stateRich : PipelineState :=
  { account := { credits := 25, creditsUsed := 0, videosGenerated := 0,
                 scriptsGenerated := 0 },
    keyCounts := [0],
    tempFileExists := false,
    cleanFileExists := false,
    videoRecords := 0,
    commits := 0 }

/-- A state with only 10 credits, below the 20-credit price. -/
def stateLowCredits : PipelineState :=
  { account := { credits := 10, creditsUsed := 0, videosGenerated := 0,
                 scriptsGenerated := 0 },
    keyCounts := [0],
    tempFileExists := false,
    cleanFileExists := false,
    videoRecords := 0,
    commits := 0 }

/-- An environment where every external call succeeds and the provider
reports completed on poll attempt 3 (index 2). -/
def envHappy : Env :=
  { providerSubmit := some "hg-video-1",
    statusAt := fun k =>
      if k = 2 then PollStatus.completed "https://resource2.heygen.ai/raw.mp4"
      else PollStatus.processing,
    downloadOk := true,
    cropOk := true,
    uploadResult := some "https://files.catbox.moe/abc123.mp4",
    storeResult := some "doc-1" }

/-- Same as envHappy but the provider reports failed on every poll. -/
def envFailedPoll : Env :=
  { envHappy with statusAt := fun _ => PollStatus.failed }

/-- Same as envHappy but the provider never reaches a terminal status. -/
def envNeverDone : Env :=
  { envHappy with statusAt := fun _ => PollStatus.processing }

/-- Same as envHappy but the Catbox upload fails. -/
def envUploadFail : Env :=
  { envHappy with uploadResult := none }

/-- Same as envHappy but the ffmpeg crop fails. -/
def envCropFail : Env :=
  { envHappy with cropOk := false }

/-- A request whose orientation string matches no switch case. -/
def reqCustomOrientation : Request :=
  { script := "Short script.",
    avatar := "Albert_public_2",
    orientation := some "custom",
    customDimensions := none }

/-- Inversion: the middleware only returns the 403 payload when the
balance is strictly below 20, and the payload carries the balance, the
price, and the purchase options. -/
theorem checkVideoLimits_insufficient_inv (a : Account) (cur needed : Int)
    (up : UpgradeOptions)
    (h : checkVideoLimits a = LimitsResult.insufficient cur needed up) :
    a.credits < 20 ∧ cur = a.credits ∧ needed = 20 ∧ up = upgradeOptions := by
  by_cases hc : a.credits < CREDITS_PER_VIDEO
  · unfold checkVideoLimits at h
    rw [if_pos hc] at h
    injection h with e1 e2 e3
    exact ⟨hc, e1.symm, e2.symm, e3.symm⟩
  · unfold checkVideoLimits at h
    rw [if_neg hc] at h
    cases h

/-- Inversion: the middleware calls next() only when the balance is at
least 20. -/
theorem checkVideoLimits_proceed_inv (a : Account) (av rq rem : Int)
    (h : checkVideoLimits a = LimitsResult.proceed av rq rem) :
    ¬ a.credits < 20 := by
  by_cases hc : a.credits < CREDITS_PER_VIDEO
  · unfold checkVideoLimits at h
    rw [if_pos hc] at h
    cases h
  · exact hc

/-- Claim C5: the orientation table is exactly landscape to 1280x720,
portrait to 720x1280, square to 1080x1080, and explicit custom
dimensions are used verbatim, overriding the table for every
orientation value. -/
theorem selectDimensions_table (d : Dimension) (o : String) :
    selectDimensions (some d) o = d ∧
    selectDimensions none "landscape" = { width := 1280, height := 720 } ∧
    selectDimensions none "portrait" = { width := 720, height := 1280 } ∧
    selectDimensions none "square" = { width := 1080, height := 1080 } := by
  refine ⟨rfl, ?_, ?_, ?_⟩ <;> decide

/-- Claim C9: the watermark crop is the fixed filter with output
width iw - 150, height ih - 80 anchored at the top-left corner: a pixel
of the input survives exactly when it lies outside the rightmost 150
columns and the bottom 80 rows. -/
theorem removeWatermarkCrop_spec (w h : Int) :
    (removeWatermarkCrop w h).outW = w - 150 ∧
    (removeWatermarkCrop w h).outH = h - 80 ∧
    (removeWatermarkCrop w h).x = 0 ∧
    (removeWatermarkCrop w h).y = 0 ∧
    (∀ px py : Int, keptPixel (removeWatermarkCrop w h) px py ↔
      0 ≤ px ∧ px < w - 150 ∧ 0 ≤ py ∧ py < h - 80) ∧
    (∀ px py : Int, 0 ≤ px → px < w → 0 ≤ py → py < h →
      (¬ keptPixel (removeWatermarkCrop w h) px py ↔
        w - 150 ≤ px ∨ h - 80 ≤ py)) := by
  refine ⟨rfl, rfl, rfl, rfl, ?_, ?_⟩
  · intro px py
    simp only [keptPixel, removeWatermarkCrop]
    omega
  · intro px py h1 h2 h3 h4
    simp only [keptPixel, removeWatermarkCrop]
    omega

/-- A status that is not completed never breaks the loop: the thrown
and fall-through outcomes are both swallowed. -/
theorem pollIteration_eq_none (s : PollStatus)
    (h : ∀ url, s ≠ PollStatus.completed url) : pollIteration s = none := by
  cases s with
  | completed url => exact absurd rfl (h url)
  | failed => rfl
  | processing => rfl
  | queryError => rfl

/-- The loop never executes more iterations than it has fuel. -/
theorem pollLoopAux_snd_le (st : Nat → PollStatus) (fuel attempts : Nat) :
    (pollLoopAux st fuel attempts).2 ≤ fuel := by
  induction fuel generalizing attempts with
  | zero => simp [pollLoopAux]
  | succ n ih =>
    unfold pollLoopAux
    cases hpi : pollIteration (st attempts) with
    | some url => simp
    | none =>
      have h2 := ih (attempts + 1)
      cases hp : pollLoopAux st n (attempts + 1) with
      | mk r k =>
        rw [hp] at h2
        simpa using Nat.succ_le_succ h2

/-- On a status stream with no completed status the loop spends all its
fuel and finds nothing. -/
theorem pollLoopAux_no_completed (st : Nat → PollStatus)
    (h : ∀ k url, st k ≠ PollStatus.completed url) (fuel attempts : Nat) :
    pollLoopAux st fuel attempts = (none, fuel) := by
  induction fuel generalizing attempts with
  | zero => rfl
  | succ n ih =>
    unfold pollLoopAux
    rw [pollIteration_eq_none (st attempts) (h attempts)]
    rw [ih (attempts + 1)]

/-- A run that reaches the poll loop against a provider that never
completes ends in the 408 timeout branch. -/
theorem generateVideo_timeout_of_no_completed (env : Env) (req : Request)
    (s : PipelineState) (r : PipelineResult) (s2 : PipelineState)
    (hrun : generateVideo env req s = (r, s2))
    (hnc : ∀ k url, env.statusAt k ≠ PollStatus.completed url)
    (h20 : ¬ s.account.credits < CREDITS_PER_VIDEO)
    (hs : req.script ≠ "") (ha : req.avatar ≠ "")
    (hk : s.keyCounts ≠ []) (hp : env.providerSubmit ≠ none) :
    r = PipelineResult.timeout := by
  have hpoll : pollLoop env.statusAt = none := by
    unfold pollLoop
    rw [pollLoopAux_no_completed env.statusAt hnc]
  have hvalid : ¬ (req.script = "" ∨ req.avatar = "") := by
    rintro (h | h)
    · exact hs h
    · exact ha h
  obtain ⟨c0, crest, hkc⟩ : ∃ c0 crest, s.keyCounts = c0 :: crest := by
    cases hsk : s.keyCounts with
    | nil => exact absurd hsk hk
    | cons a l => exact ⟨a, l, rfl⟩
  obtain ⟨vid, hps⟩ : ∃ vid, env.providerSubmit = some vid := by
    cases hpv : env.providerSubmit with
    | none => exact absurd hpv hp
    | some v => exact ⟨v, rfl⟩
  have hcl : checkVideoLimits s.account =
      LimitsResult.proceed s.account.credits CREDITS_PER_VIDEO
        (s.account.credits - CREDITS_PER_VIDEO) := by
    unfold checkVideoLimits
    rw [if_neg h20]
  unfold generateVideo generateVideoAfterKey at hrun
  rw [hcl, if_neg hvalid, hkc, hps, hpoll] at hrun
  simp only [Prod.mk.injEq] at hrun
  exact hrun.1.symm

/-- Claim C6: on a status stream with no terminal status the loop runs
exactly 60 iterations, each preceded by one 5000 ms wait, and the run
that reached it ends in the timeout result; any query outcome that does
not break the loop, a transient query error included, consumes exactly
one unit of the remaining attempt budget, which is never reset. -/
theorem pollLoop_ceiling (statusAt : Nat → PollStatus) :
    pollIterations statusAt ≤ maxAttempts ∧
    ((∀ k url, statusAt k ≠ PollStatus.completed url) →
      pollLoop statusAt = none ∧ pollIterations statusAt = 60 ∧
      pollElapsedMs statusAt = 60 * 5000) ∧
    (∀ fuel attempts, statusAt attempts = PollStatus.queryError →
      pollLoopAux statusAt (fuel + 1) attempts =
        ((pollLoopAux statusAt fuel (attempts + 1)).1,
         (pollLoopAux statusAt fuel (attempts + 1)).2 + 1)) ∧
    (∀ env req s r s2, env.statusAt = statusAt →
      (∀ k url, statusAt k ≠ PollStatus.completed url) →
      ¬ s.account.credits < 20 → req.script ≠ "" → req.avatar ≠ "" →
      s.keyCounts ≠ [] → env.providerSubmit ≠ none →
      generateVideo env req s = (r, s2) → r = PipelineResult.timeout) := by
  refine ⟨pollLoopAux_snd_le statusAt maxAttempts 0, ?_, ?_, ?_⟩
  · intro hnc
    have h := pollLoopAux_no_completed statusAt hnc maxAttempts 0
    unfold pollLoop pollIterations pollElapsedMs pollIterations
    rw [h]
    exact ⟨rfl, rfl, rfl⟩
  · intro fuel attempts hqe
    have hpi : pollIteration (statusAt attempts) = none := by
      rw [hqe]
      rfl
    cases hp : pollLoopAux statusAt fuel (attempts + 1) with
    | mk r k =>
      simp only [pollLoopAux, hpi, hp]
  · intro env req s r s2 hst hnc h20 hs ha hk hp hrun
    refine generateVideo_timeout_of_no_completed env req s r s2 hrun ?_ h20 hs ha hk hp
    rw [hst]
    exact hnc

/-- Concrete instance of the poll ceiling: a provider stuck on
processing forever makes the loop return no url after exactly 60
iterations and 300 seconds of waiting, and the full run returns the
timeout result. -/
theorem pollLoop_ceiling_witness :
    pollLoop (fun _ => PollStatus.processing) = none ∧
    pollIterations (fun _ => PollStatus.processing) = 60 ∧
    pollElapsedMs (fun _ => PollStatus.processing) = 60 * 5000 ∧
    (generateVideo envNeverDone reqSample stateSample).1 =
      PipelineResult.timeout := by
  have h := pollLoop_ceiling (fun _ => PollStatus.processing)
  have hnc : ∀ (k : Nat) (url : String),
      PollStatus.processing ≠ PollStatus.completed url :=
    fun _ _ hx => by cases hx
  refine ⟨(h.2.1 hnc).1, (h.2.1 hnc).2.1, (h.2.1 hnc).2.2, ?_⟩
  refine h.2.2.2 envNeverDone reqSample stateSample
    (generateVideo envNeverDone reqSample stateSample).1
    (generateVideo envNeverDone reqSample stateSample).2
    rfl hnc (by decide) (by decide) (by decide) (by decide) (by decide) rfl

/-- Claim C1 (code bug): with the provider reporting failed on every
poll, the body throw of line 1087 is modelled by pollTryBody returning
the thrown outcome, yet the loop's own catch swallows it, so the run
ends in the 408 timeout branch after all 60 attempts, not in a
failure propagation; the account record and the credit counters are
untouched. -/
theorem generateVideo_failed_status_times_out :
    pollTryBody PollStatus.failed =
      TryOutcome.thrown "HeyGen video generation failed" ∧
    pollLoop (fun _ => PollStatus.failed) = none ∧
    pollIterations (fun _ => PollStatus.failed) = 60 ∧
    generateVideo envFailedPoll reqSample stateSample =
      (PipelineResult.timeout, { stateSample with keyCounts := [1, 0] }) := by
  refine ⟨rfl, ?_, ?_, ?_⟩ <;> decide

/-- Claim C3: the credit debit runs exactly once on a run that returns
the success payload, and on every run that ends in any other result the
commit counter and the whole account record, its credits field
included, are unchanged. -/
theorem updateUsage_exactly_once (env : Env) (req : Request)
    (s : PipelineState) (r : PipelineResult) (s2 : PipelineState)
    (hrun : generateVideo env req s = (r, s2)) :
    ((∃ vid url, r = PipelineResult.success vid url) →
      s2.commits = s.commits + 1 ∧
      s2.account = updateUsage "video" s.account) ∧
    ((∀ vid url, r ≠ PipelineResult.success vid url) →
      s2.commits = s.commits ∧ s2.account = s.account) := by
  unfold generateVideo generateVideoAfterKey at hrun
  repeat' split at hrun
  all_goals injection hrun with h1 h2
  all_goals subst h1
  all_goals subst h2
  all_goals refine ⟨?_, ?_⟩
  all_goals first
    | (rintro ⟨vid, url, hvu⟩
       first
         | exact ⟨rfl, rfl⟩
         | cases hvu)
    | (intro hne
       first
         | exact absurd rfl (hne _ _)
         | exact ⟨rfl, rfl⟩)

/-- Claim C7: a run returns the structured insufficient-credits result
exactly when the balance is strictly below 20 at preflight, and then it
returns the 403 payload carrying the current balance, the required 20
credits and the purchase options, with the state fully unchanged: no
credential acquired, no scratch file, no record, account untouched. -/
theorem preflight_insufficient_iff (env : Env) (req : Request)
    (s : PipelineState) (r : PipelineResult) (s2 : PipelineState)
    (hrun : generateVideo env req s = (r, s2)) :
    ((∃ cur needed up,
        r = PipelineResult.insufficientCredits cur needed up) ↔
      s.account.credits < 20) ∧
    (s.account.credits < 20 →
      r = PipelineResult.insufficientCredits s.account.credits 20
            upgradeOptions ∧
      s2 = s) := by
  by_cases hc : s.account.credits < 20
  · have hcl : checkVideoLimits s.account =
        LimitsResult.insufficient s.account.credits CREDITS_PER_VIDEO
          upgradeOptions := by
      unfold checkVideoLimits CREDITS_PER_VIDEO
      rw [if_pos hc]
    unfold generateVideo at hrun
    rw [hcl] at hrun
    simp only [Prod.mk.injEq] at hrun
    obtain ⟨h1, h2⟩ := hrun
    subst h1
    subst h2
    exact ⟨⟨fun _ => hc,
            fun _ => ⟨s.account.credits, CREDITS_PER_VIDEO, upgradeOptions,
              rfl⟩⟩,
           fun _ => ⟨rfl, rfl⟩⟩
  · have hcl : checkVideoLimits s.account =
        LimitsResult.proceed s.account.credits CREDITS_PER_VIDEO
          (s.account.credits - CREDITS_PER_VIDEO) := by
      unfold checkVideoLimits CREDITS_PER_VIDEO
      rw [if_neg hc]
    unfold generateVideo generateVideoAfterKey at hrun
    rw [hcl] at hrun
    refine ⟨⟨?_, fun h => absurd h hc⟩, fun h => absurd h hc⟩
    rintro ⟨cur, needed, up, hr⟩
    subst hr
    repeat' split at hrun
    all_goals simp_all

/-- Claim C8: a run that returns the success payload changes the
account by exactly credits minus 20, creditsUsed plus 20,
videosGenerated plus 1, and creates exactly one video record. -/
theorem commit_effect (env : Env) (req : Request) (s : PipelineState)
    (r : PipelineResult) (s2 : PipelineState) (vid url : String)
    (hrun : generateVideo env req s = (r, s2))
    (hr : r = PipelineResult.success vid url) :
    s2.account.credits = s.account.credits - 20 ∧
    s2.account.creditsUsed = s.account.creditsUsed + 20 ∧
    s2.account.videosGenerated = s.account.videosGenerated + 1 ∧
    s2.account.scriptsGenerated = s.account.scriptsGenerated ∧
    s2.videoRecords = s.videoRecords + 1 := by
  subst hr
  unfold generateVideo generateVideoAfterKey at hrun
  repeat' split at hrun
  all_goals injection hrun with h1 h2
  all_goals injection h1 <;> (subst h2; simp [updateUsage, CREDITS_PER_VIDEO])

/-- Scenario instance of claim C8: with 25 credits and a provider that
completes on poll attempt 3, the run succeeds and leaves 5 credits, one
more generated video, and exactly one stored record. -/
theorem commit_effect_witness :
    (generateVideo envHappy reqSample stateRich).2.account.credits =
      stateRich.account.credits - 20 ∧
    (generateVideo envHappy reqSample stateRich).2.account.creditsUsed =
      stateRich.account.creditsUsed + 20 ∧
    (generateVideo envHappy reqSample stateRich).2.account.videosGenerated =
      stateRich.account.videosGenerated + 1 ∧
    (generateVideo envHappy reqSample stateRich).2.account.scriptsGenerated =
      stateRich.account.scriptsGenerated ∧
    (generateVideo envHappy reqSample stateRich).2.videoRecords =
      stateRich.videoRecords + 1 :=
  commit_effect envHappy reqSample stateRich
    (generateVideo envHappy reqSample stateRich).1
    (generateVideo envHappy reqSample stateRich).2
    "doc-1" "https://files.catbox.moe/abc123.mp4" rfl (by decide)

/-- Witness for claim C3: the same successful scenario runs the debit
exactly once, and a failing scenario (upload failure) leaves the
account untouched. -/
theorem updateUsage_exactly_once_witness :
    ((∃ vid url, (generateVideo envHappy reqSample stateRich).1 =
        PipelineResult.success vid url) →
      (generateVideo envHappy reqSample stateRich).2.commits =
        stateRich.commits + 1 ∧
      (generateVideo envHappy reqSample stateRich).2.account =
        updateUsage "video" stateRich.account) ∧
    ((∀ vid url, (generateVideo envHappy reqSample stateRich).1 ≠
        PipelineResult.success vid url) →
      (generateVideo envHappy reqSample stateRich).2.commits =
        stateRich.commits ∧
      (generateVideo envHappy reqSample stateRich).2.account =
        stateRich.account) :=
  updateUsage_exactly_once envHappy reqSample stateRich
    (generateVideo envHappy reqSample stateRich).1
    (generateVideo envHappy reqSample stateRich).2 rfl

/-- Witness for claim C7: with 10 credits the run is rejected with the
structured 403 payload and the state is returned unchanged. -/
theorem preflight_insufficient_iff_witness :
    ((∃ cur needed up,
        (generateVideo envHappy reqSample stateLowCredits).1 =
          PipelineResult.insufficientCredits cur needed up) ↔
      stateLowCredits.account.credits < 20) ∧
    (stateLowCredits.account.credits < 20 →
      (generateVideo envHappy reqSample stateLowCredits).1 =
        PipelineResult.insufficientCredits stateLowCredits.account.credits 20
          upgradeOptions ∧
      (generateVideo envHappy reqSample stateLowCredits).2 =
        stateLowCredits) :=
  preflight_insufficient_iff envHappy reqSample stateLowCredits
    (generateVideo envHappy reqSample stateLowCredits).1
    (generateVideo envHappy reqSample stateLowCredits).2 rfl

/-- Claim C2 counterexample: when the Catbox upload fails, the run
returns with both the raw and the cropped scratch file still on disk,
refuting deletion on every exit path. -/
theorem scratch_files_survive_upload_failure :
    (generateVideo envUploadFail reqSample stateSample).1 =
      PipelineResult.internalError "Failed to upload video to Catbox" ∧
    (generateVideo envUploadFail reqSample stateSample).2.tempFileExists =
      true ∧
    (generateVideo envUploadFail reqSample stateSample).2.cleanFileExists =
      true := by
  refine ⟨?_, ?_, ?_⟩ <;> decide

/-- Claim C2 as amended: scratch files are deleted only by the success
path. A successful run returns with both files absent; exits taken
before the download (insufficient credits, bad request, no key,
provider error, poll timeout) leave the scratch flags untouched; but a
crop failure leaves the raw file on disk, and an upload or record-store
failure leaves both files on disk — the outer catch performs no
cleanup, and removeWatermark never deletes its input file. -/
theorem scratch_cleanup_success_only (env : Env) (req : Request)
    (s : PipelineState) (r : PipelineResult) (s2 : PipelineState)
    (hrun : generateVideo env req s = (r, s2)) :
    (∀ vid url, r = PipelineResult.success vid url →
      s2.tempFileExists = false ∧ s2.cleanFileExists = false) ∧
    ((r = PipelineResult.badRequest ∨ r = PipelineResult.noKeys ∨
      r = PipelineResult.timeout ∨ r = PipelineResult.providerError ∨
      (∃ cur needed up,
        r = PipelineResult.insufficientCredits cur needed up)) →
      s2.tempFileExists = s.tempFileExists ∧
      s2.cleanFileExists = s.cleanFileExists) ∧
    (r = PipelineResult.internalError "ffmpeg error" →
      s2.tempFileExists = true) ∧
    (r = PipelineResult.internalError "Failed to upload video to Catbox" →
      s2.tempFileExists = true ∧ s2.cleanFileExists = true) ∧
    (r = PipelineResult.internalError "firestore error" →
      s2.tempFileExists = true ∧ s2.cleanFileExists = true) := by
  unfold generateVideo generateVideoAfterKey at hrun
  repeat' split at hrun
  all_goals injection hrun with h1 h2
  all_goals subst h1
  all_goals subst h2
  all_goals refine ⟨fun vid url hvu => ?_, fun hpre => ?_, fun hfe => ?_,
    fun hup => ?_, fun hfs => ?_⟩
  all_goals simp_all

/-- Witness for the amended claim C2: the upload-failure scenario hits
the both-files-remain clause, and the happy scenario hits the
deleted-on-success clause. -/
theorem scratch_cleanup_success_only_witness :
    ((∀ vid url, (generateVideo envUploadFail reqSample stateSample).1 =
        PipelineResult.success vid url →
      (generateVideo envUploadFail reqSample stateSample).2.tempFileExists =
        false ∧
      (generateVideo envUploadFail reqSample stateSample).2.cleanFileExists =
        false) ∧
    (((generateVideo envUploadFail reqSample stateSample).1 =
        PipelineResult.badRequest ∨
      (generateVideo envUploadFail reqSample stateSample).1 =
        PipelineResult.noKeys ∨
      (generateVideo envUploadFail reqSample stateSample).1 =
        PipelineResult.timeout ∨
      (generateVideo envUploadFail reqSample stateSample).1 =
        PipelineResult.providerError ∨
      (∃ cur needed up,
        (generateVideo envUploadFail reqSample stateSample).1 =
          PipelineResult.insufficientCredits cur needed up)) →
      (generateVideo envUploadFail reqSample stateSample).2.tempFileExists =
        stateSample.tempFileExists ∧
      (generateVideo envUploadFail reqSample stateSample).2.cleanFileExists =
        stateSample.cleanFileExists) ∧
    ((generateVideo envUploadFail reqSample stateSample).1 =
        PipelineResult.internalError "ffmpeg error" →
      (generateVideo envUploadFail reqSample stateSample).2.tempFileExists =
        true) ∧
    ((generateVideo envUploadFail reqSample stateSample).1 =
        PipelineResult.internalError "Failed to upload video to Catbox" →
      (generateVideo envUploadFail reqSample stateSample).2.tempFileExists =
        true ∧
      (generateVideo envUploadFail reqSample stateSample).2.cleanFileExists =
        true) ∧
    ((generateVideo envUploadFail reqSample stateSample).1 =
        PipelineResult.internalError "firestore error" →
      (generateVideo envUploadFail reqSample stateSample).2.tempFileExists =
        true ∧
      (generateVideo envUploadFail reqSample stateSample).2.cleanFileExists =
        true)) :=
  scratch_cleanup_success_only envUploadFail reqSample stateSample
    (generateVideo envUploadFail reqSample stateSample).1
    (generateVideo envUploadFail reqSample stateSample).2 rfl

/-- Claim C10: without custom dimensions, any orientation other than
portrait and square — a custom or unrecognized string, or an omitted
field defaulting to landscape — yields the landscape dimensions
1280x720, and a run is rejected as a bad request only because of a
missing script or avatar, never because of the orientation value. -/
theorem orientation_fallback (req : Request)
    (hc : req.customDimensions = none)
    (h1 : req.orientation.getD "landscape" ≠ "portrait")
    (h2 : req.orientation.getD "landscape" ≠ "square") :
    requestDimensions req = { width := 1280, height := 720 } ∧
    (∀ env s r s2, generateVideo env req s = (r, s2) →
      r = PipelineResult.badRequest →
      req.script = "" ∨ req.avatar = "") := by
  constructor
  · unfold requestDimensions selectDimensions
    rw [hc, if_neg h1, if_neg h2]
  · intro env s r s2 hrun hbad
    subst hbad
    by_contra hne
    push_neg at hne
    obtain ⟨hs, ha⟩ := hne
    unfold generateVideo generateVideoAfterKey at hrun
    repeat' split at hrun
    all_goals simp_all

/-- Witness for claim C10: the orientation string custom falls back to
landscape dimensions. -/
theorem orientation_fallback_witness :
    requestDimensions reqCustomOrientation =
      { width := 1280, height := 720 } ∧
    (∀ env s r s2, generateVideo env reqCustomOrientation s = (r, s2) →
      r = PipelineResult.badRequest →
      reqCustomOrientation.script = "" ∨
      reqCustomOrientation.avatar = "") :=
  orientation_fallback reqCustomOrientation rfl (by decide) (by decide)

/-- Witness for claim C5: concrete rows of the table, and a custom
640x480 override under the square orientation. -/
theorem selectDimensions_table_witness :
    selectDimensions (some { width := 640, height := 480 }) "square" =
      { width := 640, height := 480 } ∧
    selectDimensions none "landscape" = { width := 1280, height := 720 } ∧
    selectDimensions none "portrait" = { width := 720, height := 1280 } ∧
    selectDimensions none "square" = { width := 1080, height := 1080 } :=
  selectDimensions_table { width := 640, height := 480 } "square"

/-- Witness for claim C9: the crop filter at a 1280x720 input. -/
theorem removeWatermarkCrop_spec_witness :
    (removeWatermarkCrop 1280 720).outW = 1280 - 150 ∧
    (removeWatermarkCrop 1280 720).outH = 720 - 80 ∧
    (removeWatermarkCrop 1280 720).x = 0 ∧
    (removeWatermarkCrop 1280 720).y = 0 ∧
    (∀ px py : Int, keptPixel (removeWatermarkCrop 1280 720) px py ↔
      0 ≤ px ∧ px < 1280 - 150 ∧ 0 ≤ py ∧ py < 720 - 80) ∧
    (∀ px py : Int, 0 ≤ px → px < 1280 → 0 ≤ py → py < 720 →
      (¬ keptPixel (removeWatermarkCrop 1280 720) px py ↔
        1280 - 150 ≤ px ∨ 720 - 80 ≤ py)) :=
  removeWatermarkCrop_spec 1280 720

/-- Splitting a run of sequential acquisitions. -/
theorem iterAcquire_add (a b : Nat) (c : List Nat) :
    iterAcquire (a + b) c = iterAcquire a (iterAcquire b c) := by
  induction b generalizing c with
  | zero => rfl
  | succ n ih => exact ih ((getNextHeyGenKey c).2)

/-- The scan walks over a prefix of exhausted keys and picks the first
counter still below quota. -/
theorem getNextHeyGenKeyGo_replicate_append (a b : Nat) (hb : b < 10)
    (t : List Nat) :
    getNextHeyGenKeyGo (List.replicate a 10 ++ b :: t) =
      some (a, List.replicate a 10 ++ (b + 1) :: t) := by
  induction a with
  | zero => simp [getNextHeyGenKeyGo, hb]
  | succ n ih => simp [List.replicate_succ, getNextHeyGenKeyGo, ih]

/-- One acquisition in the middle of a filling sweep. -/
theorem getNextHeyGenKey_step (a b : Nat) (hb : b < 10) (t : List Nat) :
    getNextHeyGenKey (List.replicate a 10 ++ b :: t) =
      (a, List.replicate a 10 ++ (b + 1) :: t) := by
  unfold getNextHeyGenKey
  rw [getNextHeyGenKeyGo_replicate_append a b hb t]

/-- Finishing one key: the remaining calls that bring a counter at j up
to quota. -/
theorem iterAcquire_fill_one : ∀ (m j : Nat), j + m = 10 →
    ∀ (a : Nat) (t : List Nat),
    iterAcquire m (List.replicate a 10 ++ j :: t) =
      List.replicate (a + 1) 10 ++ t := by
  intro m
  induction m with
  | zero =>
    intro j hj a t
    have hj10 : j = 10 := by omega
    subst hj10
    show List.replicate a 10 ++ 10 :: t = List.replicate (a + 1) 10 ++ t
    rw [List.replicate_succ']
    simp [List.append_assoc]
  | succ n ih =>
    intro j hj a t
    have hb : j < 10 := by omega
    show iterAcquire n
      (getNextHeyGenKey (List.replicate a 10 ++ j :: t)).2 = _
    rw [getNextHeyGenKey_step a j hb t]
    exact ih (j + 1) (by omega) a t

/-- Filling the whole pool: 10 calls per fresh key. -/
theorem iterAcquire_fill_all : ∀ (b a : Nat),
    iterAcquire (10 * b) (List.replicate a 10 ++ List.replicate b 0) =
      List.replicate (a + b) 10 := by
  intro b
  induction b with
  | zero => intro a; simp [iterAcquire]
  | succ n ih =>
    intro a
    have h10 : 10 * (n + 1) = 10 * n + 10 := by ring
    rw [h10, iterAcquire_add (10 * n) 10]
    rw [show List.replicate (n + 1) 0 = 0 :: List.replicate n 0 from rfl]
    rw [iterAcquire_fill_one 10 0 rfl a (List.replicate n 0)]
    rw [ih (a + 1)]
    have hadd : a + 1 + n = a + (n + 1) := by omega
    rw [hadd]

/-- A fully exhausted pool makes the scan come up empty. -/
theorem getNextHeyGenKeyGo_replicate_ten (n : Nat) :
    getNextHeyGenKeyGo (List.replicate n 10) = none := by
  induction n with
  | zero => rfl
  | succ m ih => simp [List.replicate_succ, getNextHeyGenKeyGo, ih]

/-- Selection policy of the scan: the returned index is in range, its
counter was strictly below 10, every earlier counter was at 10, and the
new state increments exactly that counter. -/
theorem getNextHeyGenKeyGo_spec : ∀ (counts : List Nat) (i : Nat)
    (counts2 : List Nat),
    getNextHeyGenKeyGo counts = some (i, counts2) →
    i < counts.length ∧ counts.getD i 0 < 10 ∧
    (∀ j, j < i → 10 ≤ counts.getD j 0) ∧
    counts2 = counts.set i (counts.getD i 0 + 1) := by
  intro counts
  induction counts with
  | nil => intro i c2 h; cases h
  | cons c cs ih =>
    intro i c2 h
    unfold getNextHeyGenKeyGo at h
    by_cases hlt : c < 10
    · rw [if_pos hlt] at h
      injection h with h1
      injection h1 with hi hc2
      subst hi
      subst hc2
      refine ⟨by simp, by simpa using hlt, ?_, by simp⟩
      intro j hj
      omega
    · rw [if_neg hlt] at h
      cases hgo : getNextHeyGenKeyGo cs with
      | none => rw [hgo] at h; cases h
      | some p =>
        cases p with
        | mk i0 cs0 =>
          rw [hgo] at h
          injection h with h1
          injection h1 with hi hc2
          subst hi
          subst hc2
          obtain ⟨hlen, hlt0, hmono, hset⟩ := ih i0 cs0 hgo
          refine ⟨?_, ?_, ?_, ?_⟩
          · simp only [List.length_cons]
            omega
          · simpa using hlt0
          · intro j hj
            cases j with
            | zero => simpa using Nat.le_of_not_lt hlt
            | succ j0 => simpa using hmono j0 (by omega)
          · simp [hset, List.getD_cons_succ, List.set_cons_succ]

/-- Claim C4: with the pool quota of 10, starting from all counters at
zero, after n times 10 sequential acquisitions every counter equals 10;
the next call resets the pool and returns the first key with its
counter set to 1 and every other counter back at zero; and every scan
hit returns the first key in pool order whose counter was strictly
below 10 before its increment. -/
theorem getNextHeyGenKey_quota_cycle (n : Nat) (hn : 1 ≤ n) :
    iterAcquire (n * 10) (List.replicate n 0) = List.replicate n 10 ∧
    getNextHeyGenKey (List.replicate n 10) =
      (0, 1 :: List.replicate (n - 1) 0) ∧
    (∀ counts i counts2,
      getNextHeyGenKeyGo counts = some (i, counts2) →
      counts.getD i 0 < 10 ∧ (∀ j, j < i → 10 ≤ counts.getD j 0) ∧
      counts2 = counts.set i (counts.getD i 0 + 1)) := by
  refine ⟨?_, ?_, ?_⟩
  · have hfill := iterAcquire_fill_all n 0
    simpa [Nat.mul_comm] using hfill
  · unfold getNextHeyGenKey
    rw [getNextHeyGenKeyGo_replicate_ten n]
    simp
  · intro counts i counts2 h
    obtain ⟨_, h2, h3, h4⟩ := getNextHeyGenKeyGo_spec counts i counts2 h
    exact ⟨h2, h3, h4⟩

/-- Witness for claim C4: a pool of two keys is exhausted after 20
calls and the 21st call resets it. -/
theorem getNextHeyGenKey_quota_cycle_witness :
    1 ≤ 2 ∧
    (iterAcquire (2 * 10) (List.replicate 2 0) = List.replicate 2 10 ∧
     getNextHeyGenKey (List.replicate 2 10) =
       (0, 1 :: List.replicate (2 - 1) 0) ∧
     (∀ counts i counts2,
       getNextHeyGenKeyGo counts = some (i, counts2) →
       counts.getD i 0 < 10 ∧ (∀ j, j < i → 10 ≤ counts.getD j 0) ∧
       counts2 = counts.set i (counts.getD i 0 + 1))) :=
  ⟨by decide, getNextHeyGenKey_quota_cycle 2 (by decide)⟩

end Lumino
